import Mathlib

/-!
Verification development for the upClock activity-inference core.

The definitions below are a shallow embedding of the Python sources
`src/upclock/core/signal_buffer.py`, `src/upclock/core/activity_engine.py`
and the reminder-policy section of `src/upclock/service.py`:

* Python floats are modelled as rationals (`ℚ`); instants are rationals
  counting seconds, so `datetime` subtraction becomes rational subtraction
  and `timedelta(minutes=m)` becomes `m * 60` seconds.
* record payloads (`Dict[str, Union[float, str]]`) become association
  lists `List (String × Value)`; string payloads are modelled as opaque,
  non-numeric strings (`float(s)` on them raises, which is the behaviour
  relevant to the specification's failure-semantics sentences).
* fallible code is modelled in `Except Unit`: a `.error` value marks a
  Python exception escaping the translated function.
* `datetime.utcnow()` is made an explicit `now` argument, exactly as the
  repository's own tests do by stubbing the engine's clock.
-/

namespace UpClock

/-- Python `min` on two rationals (an `if`-based form that evaluates by
kernel reduction, unlike the lattice operations). -/
def qmin (a b : ℚ) : ℚ := if a ≤ b then a else b

/-- Python `max` on two rationals. -/
def qmax (a b : ℚ) : ℚ := if a ≤ b then b else a

/-- Python `min` on two integers. -/
def imin (a b : ℤ) : ℤ := if a ≤ b then a else b

/-- Python `max` on two integers. -/
def imax (a b : ℤ) : ℤ := if a ≤ b then b else a

theorem qmin_le_right (a b : ℚ) : qmin a b ≤ b := by
  unfold qmin; split <;> simp_all

theorem qmin_nonneg {a b : ℚ} (ha : 0 ≤ a) (hb : 0 ≤ b) : 0 ≤ qmin a b := by
  unfold qmin; split <;> assumption

theorem le_qmax_right (a b : ℚ) : b ≤ qmax a b := by
  unfold qmax
  by_cases h : a ≤ b
  · rw [if_pos h]
  · rw [if_neg h]
    exact le_of_lt (not_le.mp h)

theorem qmax_zero_nonneg (x : ℚ) : 0 ≤ qmax 0 x := by
  unfold qmax
  by_cases h : (0 : ℚ) ≤ x
  · rw [if_pos h]; exact h
  · rw [if_neg h]

theorem qmax_le {a b c : ℚ} (ha : a ≤ c) (hb : b ≤ c) : qmax a b ≤ c := by
  unfold qmax
  split <;> assumption

/-- A payload value of a `SignalRecord`: a float or a (non-numeric) string. -/
inductive Value where
  | num (q : ℚ)
  | str (s : String)
deriving DecidableEq, Repr

/-- `float(v)` in Python: numbers coerce, non-numeric strings raise. -/
def pyFloat : Value → Except Unit ℚ
  | .num q => .ok q
  | .str _ => .error ()

/-- `float(v)` wrapped in `try/except` with default 0, as in the engine's
activity-volume loop. -/
def pyFloatD : Value → ℚ
  | .num q => q
  | .str _ => 0

/-- Python truthiness of a payload value (`0.0` and `""` are falsy). -/
def pyTruthy : Value → Bool
  | .num q => q != 0
  | .str s => s ≠ ""

/-- Python `v > 0`: defined for numbers, a `TypeError` for strings. -/
def pyGtZero : Value → Except Unit Bool
  | .num q => .ok (0 < q)
  | .str _ => .error ()

/-- Python `a or b` on two optional payload values (`None` and falsy values
fall through to the right operand). -/
def pyOrOpt : Option Value → Option Value → Option Value
  | some v, b => if pyTruthy v then some v else b
  | none, b => b

/-- Python `str(v)`.  Only ever compared against `"untracked"` /
`"unknown"` by the engine, so the numeric rendering is collapsed to a
placeholder that matches neither. -/
def pyStrOf : Value → String
  | .str s => s
  | .num _ => "float"

/-- One buffered sensor record (`SignalRecord` in `signal_buffer.py`). -/
structure SignalRecord where
  timestamp : ℚ
  values : List (String × Value)
deriving DecidableEq, Repr

/-- `record.values.get(key)`: first binding of `key`, if any. -/
def getVal (vs : List (String × Value)) (k : String) : Option Value :=
  (vs.find? (fun p => p.1 == k)).map (·.2)

/-- `record.values.get(key, default)`. -/
def getValD (vs : List (String × Value)) (k : String) (d : Value) : Value :=
  (getVal vs k).getD d

/-- The configuration fields consumed by the core (`AppConfig` in
`config.py`); integer fields are integers there, thresholds are floats. -/
structure AppConfig where
  short_break_minutes : ℤ
  break_reset_minutes : ℤ
  prolonged_seated_minutes : ℤ
  vision_presence_threshold : ℚ
  notifications_enabled : Bool
  notification_cooldown_minutes : ℤ
deriving DecidableEq, Repr

/-- `ActivityState` in `activity_engine.py`. -/
inductive ActivityState where
  | ACTIVE
  | SHORT_BREAK
  | PROLONGED_SEATED
deriving DecidableEq, Repr

/-- `ActivitySnapshot` in `activity_engine.py`. -/
structure ActivitySnapshot where
  score : ℚ
  state : ActivityState
  metrics : List (String × Value)
  flow_mode_remaining : Option ℚ := none
deriving DecidableEq, Repr

/-- The ring buffer of `signal_buffer.py`.  The deque's capacity behaviour
is kept; the lock only serialises accesses and has no sequential content. -/
structure SignalBuffer where
  maxlen : ℕ := 600
  records : List SignalRecord := []
deriving DecidableEq, Repr

/-- `SignalBuffer.append`: push right, evict oldest past `maxlen`. -/
def SignalBuffer.append (b : SignalBuffer) (r : SignalRecord) : SignalBuffer :=
  let l := b.records ++ [r]
  { b with records := l.drop (l.length - b.maxlen) }

/-- `SignalBuffer.snapshot`: a copy of the retained records, in order. -/
def SignalBuffer.snapshot (b : SignalBuffer) : List SignalRecord :=
  b.records

/-- Modelled from the spec: `SignalBuffer.clear()` is named by the spec
(§4.1, §6) and invoked by its orchestration-loop callers in `service.py`
(manual reset and sleep-wake boundaries), but the method itself is missing
from the sources under `src/`.  Per the spec it "drops all records". -/
def SignalBuffer.clear (b : SignalBuffer) : SignalBuffer :=
  { b with records := [] }

/-- Round-half-to-even on a rational, the tie rule of Python's `round`. -/
def roundHalfEven (x : ℚ) : ℤ :=
  let f := ⌊x⌋
  let r := x - f
  if r < 1 / 2 then f
  else if 1 / 2 < r then f + 1
  else if f % 2 = 0 then f else f + 1

/-- Python `round(x, 4)`. -/
def pyRound4 (x : ℚ) : ℚ :=
  (roundHalfEven (x * 10000) : ℚ) / 10000

/-- `max(1, min(config.short_break_minutes, 5))`, the activity-window
length in minutes fixed in `ActivityEngine.__init__`. -/
def windowMinutes (cfg : AppConfig) : ℤ :=
  imax 1 (imin cfg.short_break_minutes 5)

/-- The mutable state of an `ActivityEngine` instance: the construction
time window/baseline constants plus the three cross-tick timers. -/
structure EngineState where
  config : AppConfig
  activity_window : ℚ
  baseline_activity : ℚ
  seated_started_at : Option ℚ := none
  visual_probe_requested_at : Option ℚ := none
  visual_probe_triggered_at : Option ℚ := none
deriving DecidableEq, Repr

/-- `ActivityEngine.__init__(buffer, config)`. -/
def mkEngine (cfg : AppConfig) : EngineState :=
  let w : ℚ := (windowMinutes cfg : ℚ) * 60
  { config := cfg
    activity_window := w
    baseline_activity := qmax (w / 6) 20 }

/-- `ActivityEngine.update_config`: replaces the config only; the window
and baseline computed at construction time are left untouched. -/
def update_config (e : EngineState) (cfg : AppConfig) : EngineState :=
  { e with config := cfg }

/-- `ActivityEngine.reset_state`. -/
def reset_state (e : EngineState) : EngineState :=
  { e with seated_started_at := none
           visual_probe_requested_at := none
           visual_probe_triggered_at := none }

/-- The numeric activity volume extracted from one record in the
`compute_snapshot` loop: `keyboard_mouse_activity`, falling back to
`total_events` (default 0), coerced with `try float ... except: 0`. -/
def activityNumeric (vs : List (String × Value)) : ℚ :=
  let v := (getVal vs "keyboard_mouse_activity").getD
    (getValD vs "total_events" (.num 0))
  pyFloatD v

/-- The records inside the trailing activity window. -/
def recentRecords (records : List SignalRecord) (now window : ℚ) :
    List SignalRecord :=
  records.filter (fun r => now - r.timestamp ≤ window)

/-- `activity_sum` accumulated over the recent records. -/
def activitySum (records : List SignalRecord) (now window : ℚ) : ℚ :=
  (recentRecords records now window).foldl
    (fun s r => s + qmax 0 (activityNumeric r.values)) 0

/-- `has_recent_keyboard_mouse`: some recent record has positive volume. -/
def hasRecentKM (records : List SignalRecord) (now window : ℚ) : Bool :=
  (recentRecords records now window).any (fun r => 0 < activityNumeric r.values)

/-- `min(activity_sum / baseline, 1.0) if activity_sum else 0.0`. -/
def normalizedActivity (sum baseline : ℚ) : ℚ :=
  if sum = 0 then 0 else qmin (sum / baseline) 1

/-- The body of `ActivityEngine._last_activity_time`, processing the
records newest-first (the argument list is already reversed).  The
comparison `total > 0` on a truthy string raises (it sits outside the
`try`), while coercion failures on `presence_confidence` and
`presence_state` are caught and skipped exactly as in the source. -/
def last_activity_aux (threshold : ℚ) : List SignalRecord → Except Unit (Option ℚ)
  | [] => .ok none
  | r :: rest =>
    let presencePart : Except Unit (Option ℚ) :=
      match getVal r.values "presence_confidence" with
      | none => last_activity_aux threshold rest
      | some pv =>
        match pyFloat pv with
        | .error _ => last_activity_aux threshold rest
        | .ok confidence =>
          if confidence < threshold then last_activity_aux threshold rest
          else
            match getVal r.values "presence_state" with
            | some sv =>
              let present : Bool :=
                match pyFloat sv with
                | .ok q => decide (1 / 2 ≤ q)
                | .error _ => false
              if present then .ok (some r.timestamp)
              else last_activity_aux threshold rest
            | none => .ok (some r.timestamp)
    match pyOrOpt (getVal r.values "keyboard_mouse_activity")
        (getVal r.values "total_events") with
    | none => presencePart
    | some v =>
      if pyTruthy v then
        match pyGtZero v with
        | .error e => .error e
        | .ok true => .ok (some r.timestamp)
        | .ok false => presencePart
      else presencePart

/-- `ActivityEngine._last_activity_time`. -/
def last_activity_time (threshold : ℚ) (records : List SignalRecord) :
    Except Unit (Option ℚ) :=
  last_activity_aux threshold records.reverse

/-- The `_Presence` record built by `ActivityEngine._latest_presence`. -/
structure Presence where
  timestamp : ℚ
  confidence : ℚ
  posture_score : ℚ
  posture_state : String
deriving DecidableEq, Repr

/-- Body of `ActivityEngine._latest_presence`, newest-first.  The `float`
coercions here are *not* guarded by `try/except` in the source, so a
non-numeric `presence_confidence` or `posture_score` raises. -/
def latest_presence_aux : List SignalRecord → Except Unit (Option Presence)
  | [] => .ok none
  | r :: rest =>
    if (getVal r.values "presence_confidence").isSome then
      match pyFloat (getValD r.values "presence_confidence" (.num 0)),
          pyFloat (getValD r.values "posture_score" (.num 0)) with
      | .ok c, .ok p =>
        .ok (some { timestamp := r.timestamp
                    confidence := c
                    posture_score := p
                    posture_state :=
                      pyStrOf (getValD r.values "posture_state" (.str "unknown")) })
      | .error e, _ => .error e
      | _, .error e => .error e
    else latest_presence_aux rest

/-- `ActivityEngine._latest_presence`. -/
def latest_presence (records : List SignalRecord) : Except Unit (Option Presence) :=
  latest_presence_aux records.reverse

/-- `ActivityEngine._resolve_state`. -/
def resolve_state (cfg : AppConfig) (seated_minutes break_minutes : ℚ) :
    ActivityState :=
  if (cfg.break_reset_minutes : ℚ) ≤ break_minutes then .SHORT_BREAK
  else if (cfg.prolonged_seated_minutes : ℚ) ≤ seated_minutes then .PROLONGED_SEATED
  else .ACTIVE

/-- `ActivityEngine._update_seated_timer`: returns the new
`seated_started_at` and the seated minutes. -/
def update_seated_timer (cfg : AppConfig) (started : Option ℚ)
    (now last_activity_at break_minutes : ℚ) : Option ℚ × ℚ :=
  if (cfg.break_reset_minutes : ℚ) ≤ break_minutes then (none, 0)
  else
    let anchor := started.getD last_activity_at
    (some anchor, qmax 0 ((now - anchor) / 60))

/-- `ActivityEngine._update_visual_probe_state`: returns the new
`(visual_probe_requested_at, visual_probe_triggered_at)` pair.  The probe
window is 90 s and the cooldown 120 s, as fixed in `__init__`. -/
def update_visual_probe_state (cfg : AppConfig)
    (requested triggered : Option ℚ) (now seated_minutes break_minutes : ℚ)
    (state : ActivityState) (presence_confidence : ℚ) (posture_state : String) :
    Option ℚ × Option ℚ :=
  if state = .PROLONGED_SEATED then (requested, triggered)
  else if (cfg.break_reset_minutes : ℚ) * 60 ≤ break_minutes * 60 then (none, none)
  else if seated_minutes * 60 < (cfg.prolonged_seated_minutes : ℚ) * 60 * (19 / 20)
    then (none, none)
  else if cfg.vision_presence_threshold ≤ presence_confidence
      ∧ posture_state ≠ "untracked" then (none, none)
  else
    match requested with
    | some t =>
      if now - t ≤ 90 then (requested, triggered)
      else if now - t ≤ 120 then (requested, triggered)
      else (some now, none)
    | none => (some now, none)

/-- `ActivityEngine._should_request_visual_probe`: false without a
request; false once `triggered_at >= requested_at`; false past the 90 s
window; true otherwise.  (The source's early-return chain is written as
the equivalent boolean conjunction.) -/
def should_request_visual_probe (e : EngineState) (now : ℚ) : Bool :=
  match e.visual_probe_requested_at with
  | none => false
  | some t =>
    !(match e.visual_probe_triggered_at with
      | some tr => decide (t ≤ tr)
      | none => false)
    && decide (now - t ≤ 90)

/-- `ActivityEngine.should_trigger_visual_probe(now)`. -/
def should_trigger_visual_probe (e : EngineState) (now : ℚ) : Bool :=
  should_request_visual_probe e now

/-- `ActivityEngine.mark_visual_probe_fired(now)`. -/
def mark_visual_probe_fired (e : EngineState) (now : ℚ) : EngineState :=
  match e.visual_probe_requested_at with
  | none => e
  | some _ => { e with visual_probe_triggered_at := some now }

/-- `ActivityEngine._compute_score`. -/
def compute_score (cfg : AppConfig)
    (seated_minutes normalized_activity posture_score : ℚ) : ℚ :=
  let seatedFrac :=
    qmin (seated_minutes / ((imax cfg.prolonged_seated_minutes 1 : ℤ) : ℚ)) 1
  let modifier := if 0 < posture_score then posture_score else 1 / 2
  pyRound4 ((1 - seatedFrac) * normalized_activity * modifier)

/-- The trusted `vision_signal` filter in `compute_snapshot`:
`posture_state != "untracked" and confidence > 0.05`. -/
def visionSignalOf : Option Presence → Option Presence
  | some p =>
    if p.posture_state ≠ "untracked" ∧ 1 / 20 < p.confidence then some p else none
  | none => none

/-- The metrics map returned for an empty buffer. -/
def emptyMetrics (cfg : AppConfig) : List (String × Value) :=
  [("seated_minutes", .num 0),
   ("break_minutes", .num (cfg.break_reset_minutes : ℚ)),
   ("normalized_activity", .num 0),
   ("activity_sum", .num 0),
   ("score", .num 0)]

/-- `last_activity_at` after the fallback `records[-1].timestamp`. -/
def lastActivityAt (records : List SignalRecord) (laOpt : Option ℚ) : ℚ :=
  laOpt.getD ((records.getLast?.getD { timestamp := 0, values := [] }).timestamp)

/-- The absent/low-confidence override on `break_minutes`: when a trusted
vision signal has confidence below the threshold and there was no recent
keyboard/mouse activity, `break_minutes` is forced up to the reset value. -/
def breakWithOverride (cfg : AppConfig) (presOpt : Option Presence)
    (hasRecent : Bool) (b0 : ℚ) : ℚ :=
  match visionSignalOf presOpt with
  | some p =>
    if p.confidence < cfg.vision_presence_threshold ∧ hasRecent = false
    then qmax b0 (cfg.break_reset_minutes : ℚ)
    else b0
  | none => b0

/-- The final `break_minutes` computed by `compute_snapshot`. -/
def coreBreak (e : EngineState) (records : List SignalRecord) (now : ℚ)
    (laOpt : Option ℚ) (presOpt : Option Presence) : ℚ :=
  breakWithOverride e.config presOpt (hasRecentKM records now e.activity_window)
    (qmax 0 ((now - lastActivityAt records laOpt) / 60))

/-- The seated-timer update performed by `compute_snapshot`. -/
def coreSeatedPair (e : EngineState) (records : List SignalRecord) (now : ℚ)
    (laOpt : Option ℚ) (presOpt : Option Presence) : Option ℚ × ℚ :=
  update_seated_timer e.config e.seated_started_at now (lastActivityAt records laOpt)
    (coreBreak e records now laOpt presOpt)

/-- The posture score entering the score: the trusted vision signal's, else 1. -/
def corePosture (presOpt : Option Presence) : ℚ :=
  match visionSignalOf presOpt with
  | some p => p.posture_score
  | none => 1

/-- The normalized activity derived from the buffer. -/
def coreNormalized (e : EngineState) (records : List SignalRecord) (now : ℚ) : ℚ :=
  normalizedActivity (activitySum records now e.activity_window) e.baseline_activity

/-- The state resolved by `compute_snapshot`. -/
def coreState (e : EngineState) (records : List SignalRecord) (now : ℚ)
    (laOpt : Option ℚ) (presOpt : Option Presence) : ActivityState :=
  resolve_state e.config (coreSeatedPair e records now laOpt presOpt).2
    (coreBreak e records now laOpt presOpt)

/-- The score computed by `compute_snapshot`. -/
def coreScore (e : EngineState) (records : List SignalRecord) (now : ℚ)
    (laOpt : Option ℚ) (presOpt : Option Presence) : ℚ :=
  compute_score e.config (coreSeatedPair e records now laOpt presOpt).2
    (coreNormalized e records now) (corePosture presOpt)

/-- The visual-probe timestamp update performed by `compute_snapshot`. -/
def coreProbePair (e : EngineState) (records : List SignalRecord) (now : ℚ)
    (laOpt : Option ℚ) (presOpt : Option Presence) : Option ℚ × Option ℚ :=
  update_visual_probe_state e.config e.visual_probe_requested_at
    e.visual_probe_triggered_at now (coreSeatedPair e records now laOpt presOpt).2
    (coreBreak e records now laOpt presOpt) (coreState e records now laOpt presOpt)
    ((presOpt.map (·.confidence)).getD 0)
    (match presOpt with | some p => p.posture_state | none => "unknown")

/-- The non-empty-buffer body of `compute_snapshot`, after the two
fallible scans have succeeded with `laOpt` and `presOpt`. -/
def computeCore (e : EngineState) (records : List SignalRecord) (now : ℚ)
    (laOpt : Option ℚ) (presOpt : Option Presence) :
    ActivitySnapshot × EngineState :=
  let e' := { e with
    seated_started_at := (coreSeatedPair e records now laOpt presOpt).1
    visual_probe_requested_at := (coreProbePair e records now laOpt presOpt).1
    visual_probe_triggered_at := (coreProbePair e records now laOpt presOpt).2 }
  ({ score := coreScore e records now laOpt presOpt
     state := coreState e records now laOpt presOpt
     metrics :=
       [("activity_sum", .num (activitySum records now e.activity_window)),
        ("normalized_activity", .num (coreNormalized e records now)),
        ("seated_minutes", .num (coreSeatedPair e records now laOpt presOpt).2),
        ("break_minutes", .num (coreBreak e records now laOpt presOpt)),
        ("presence_confidence", .num ((presOpt.map (·.confidence)).getD 0)),
        ("posture_score", .num (corePosture presOpt)),
        ("posture_state", .str (match presOpt with
          | some p => p.posture_state
          | none => "unknown")),
        ("score", .num (coreScore e records now laOpt presOpt)),
        ("visual_probe_pending",
          .num (if should_request_visual_probe e' now then 1 else 0))] }, e')

/-- `ActivityEngine.compute_snapshot`, with the buffer snapshot and the
clock made explicit.  Returns the produced snapshot together with the
engine state after the call; `.error` marks an escaping exception. -/
def compute_snapshot (e : EngineState) (records : List SignalRecord) (now : ℚ) :
    Except Unit (ActivitySnapshot × EngineState) :=
  if records.isEmpty then
    .ok ({ score := 0, state := .SHORT_BREAK, metrics := emptyMetrics e.config }, e)
  else
    match last_activity_time e.config.vision_presence_threshold records,
        latest_presence records with
    | .ok laOpt, .ok presOpt => .ok (computeCore e records now laOpt presOpt)
    | .error er, _ => .error er
    | _, .error er => .error er

/-- Outcome of one pass of the reminder policy in `run_backend`. -/
structure RemindOutcome where
  fired : Bool
  next_reminder_minutes : Option ℚ
  last_notification_at : Option ℚ
deriving DecidableEq, Repr

/-- The reminder-policy block of `run_backend` (service.py): decides
whether a notification fires this tick, what next-reminder value is
reported, and the new last-notification timestamp. -/
def reminderTick (enabled flow_active snooze_active quiet_active : Bool)
    (state : ActivityState) (lastAt : Option ℚ)
    (now cooldown_seconds cooldown_minutes snooze_remaining quiet_remaining : ℚ) :
    RemindOutcome :=
  if enabled && !flow_active && !snooze_active && !quiet_active then
    if state = .PROLONGED_SEATED then
      match lastAt with
      | none =>
        { fired := true, next_reminder_minutes := some cooldown_minutes
          last_notification_at := some now }
      | some l =>
        if cooldown_seconds ≤ now - l then
          { fired := true, next_reminder_minutes := some cooldown_minutes
            last_notification_at := some now }
        else
          { fired := false
            next_reminder_minutes := some (qmax 0 ((cooldown_seconds - (now - l)) / 60))
            last_notification_at := some l }
    else
      { fired := false, next_reminder_minutes := none, last_notification_at := none }
  else if snooze_active && decide (state = .PROLONGED_SEATED) then
    { fired := false, next_reminder_minutes := some snooze_remaining
      last_notification_at := lastAt }
  else if quiet_active && decide (state = .PROLONGED_SEATED) then
    { fired := false, next_reminder_minutes := some quiet_remaining
      last_notification_at := lastAt }
  else
    { fired := false, next_reminder_minutes := none, last_notification_at := lastAt }

/-- Engine state after one `compute_snapshot` call (state unchanged if
the call raised) — trace helper for the probe-scheduler claims. -/
def engineAfter (e : EngineState) (records : List SignalRecord) (now : ℚ) :
    EngineState :=
  match compute_snapshot e records now with
  | .ok (_, e') => e'
  | .error _ => e

/-- The score of the snapshot produced by `compute_snapshot` (0 if the
call raised) — extraction helper for concrete evaluations. -/
def scoreOf (e : EngineState) (records : List SignalRecord) (now : ℚ) : ℚ :=
  match compute_snapshot e records now with
  | .ok (s, _) => s.score
  | .error _ => 0

/-- Decidable check: the snapshot's `break_minutes` metric is a number at
least the configured `break_reset_minutes`. -/
def breakMetricAtLeastReset (cfg : AppConfig) (snap : ActivitySnapshot) : Bool :=
  match getVal snap.metrics "break_minutes" with
  | some (.num b) => decide ((cfg.break_reset_minutes : ℚ) ≤ b)
  | _ => false

/-- The repository's default configuration values (`AppConfig` defaults),
used to instantiate witnesses. -/
def cfgDefault : AppConfig :=
  { short_break_minutes := 3
    break_reset_minutes := 3
    prolonged_seated_minutes := 45
    vision_presence_threshold := 3 / 5
    notifications_enabled := true
    notification_cooldown_minutes := 30 }

/-- Claim C1: `SignalBuffer.clear()` drops all retained records for every
buffer state, so a subsequent `snapshot()` returns the empty list.  (The
`clear` method itself is modelled from the spec, being absent from `src/`;
its orchestration-loop callers on manual reset and sleep-wake boundaries
are `service.py` lines 327-333, 343-345, 397-399.) -/
theorem clear_then_snapshot_empty (b : SignalBuffer) :
    (b.clear).snapshot = [] := rfl

/-- Claim C2: evaluating the code at the failing input.  A buffer holding
one record whose `presence_confidence` is the non-numeric string `"abc"`
makes `compute_snapshot` raise (the unguarded `float(...)` in
`_latest_presence`), contradicting the claim that coercion failures are
degraded to 0 and the engine never raises. -/
theorem compute_snapshot_raises_on_nonnumeric_presence :
    compute_snapshot (mkEngine cfgDefault)
      [{ timestamp := 990, values := [("presence_confidence", .str "abc")] }] 1000
      = .error () := rfl

/-- Claim C3: for every engine state and clock, an empty buffer yields a
successful snapshot with state `SHORT_BREAK`, score 0, `break_minutes`
metric equal to the configured `break_reset_minutes`, and `seated_minutes`
metric equal to 0. -/
theorem empty_buffer_short_break (e : EngineState) (now : ℚ) :
    (compute_snapshot e [] now).isOk = true ∧
    ∀ snap e2, compute_snapshot e [] now = .ok (snap, e2) →
      snap.state = .SHORT_BREAK ∧ snap.score = 0 ∧
      getVal snap.metrics "break_minutes"
        = some (.num (e.config.break_reset_minutes : ℚ)) ∧
      getVal snap.metrics "seated_minutes" = some (.num 0) := by
  refine ⟨rfl, ?_⟩
  intro snap e2 h
  have h' : (({ score := 0, state := .SHORT_BREAK
                metrics := emptyMetrics e.config } : ActivitySnapshot), e)
      = (snap, e2) := by
    exact Except.ok.inj h
  obtain ⟨h1, h2⟩ := Prod.mk.injEq .. ▸ h'
  subst h1
  exact ⟨rfl, rfl, rfl, rfl⟩

/-- Witness for C3: the conclusion at the default config and a concrete
clock, hypotheses discharged at the computed snapshot. -/
theorem empty_buffer_short_break_witness :
    (({ score := 0, state := .SHORT_BREAK
        metrics := emptyMetrics cfgDefault } : ActivitySnapshot)).state
        = ActivityState.SHORT_BREAK := by
  exact ((empty_buffer_short_break (mkEngine cfgDefault) 500).2
    { score := 0, state := .SHORT_BREAK, metrics := emptyMetrics cfgDefault }
    (mkEngine cfgDefault) rfl).1

/-- Claim C4: `_resolve_state` classifies `SHORT_BREAK` whenever
`break_minutes >= break_reset_minutes` regardless of `seated_minutes`,
else `PROLONGED_SEATED` whenever `seated_minutes >= prolonged_seated_minutes`,
else `ACTIVE`: the break classification takes precedence. -/
theorem resolve_state_break_precedence (cfg : AppConfig)
    (seated_minutes break_minutes : ℚ) :
    ((cfg.break_reset_minutes : ℚ) ≤ break_minutes →
      resolve_state cfg seated_minutes break_minutes = .SHORT_BREAK) ∧
    (break_minutes < (cfg.break_reset_minutes : ℚ) →
      (cfg.prolonged_seated_minutes : ℚ) ≤ seated_minutes →
      resolve_state cfg seated_minutes break_minutes = .PROLONGED_SEATED) ∧
    (break_minutes < (cfg.break_reset_minutes : ℚ) →
      seated_minutes < (cfg.prolonged_seated_minutes : ℚ) →
      resolve_state cfg seated_minutes break_minutes = .ACTIVE) := by
  refine ⟨fun h => ?_, fun h1 h2 => ?_, fun h1 h2 => ?_⟩
  · rw [resolve_state, if_pos h]
  · rw [resolve_state, if_neg (not_le.mpr h1), if_pos h2]
  · rw [resolve_state, if_neg (not_le.mpr h1), if_neg (not_le.mpr h2)]

/-- Witness for C4: all three branches at concrete inputs (`seated = 100`
with a long break still classifies as a break). -/
theorem resolve_state_break_precedence_witness :
    resolve_state cfgDefault 100 5 = .SHORT_BREAK ∧
    resolve_state cfgDefault 50 1 = .PROLONGED_SEATED ∧
    resolve_state cfgDefault 1 1 = .ACTIVE :=
  ⟨(resolve_state_break_precedence cfgDefault 100 5).1 (by norm_num [cfgDefault]),
   (resolve_state_break_precedence cfgDefault 50 1).2.1
     (by norm_num [cfgDefault]) (by norm_num [cfgDefault]),
   (resolve_state_break_precedence cfgDefault 1 1).2.2
     (by norm_num [cfgDefault]) (by norm_num [cfgDefault])⟩

/-- Claim C10: `mark_visual_probe_fired(now)` with no outstanding request
(`visual_probe_requested_at = None`) is a no-op on the whole engine state,
for every `now`. -/
theorem mark_fired_noop_without_request (e : EngineState) (now : ℚ)
    (h : e.visual_probe_requested_at = none) :
    mark_visual_probe_fired e now = e := by
  unfold mark_visual_probe_fired
  rw [h]

/-- Witness for C10: a fresh engine has no outstanding request. -/
theorem mark_fired_noop_without_request_witness :
    mark_visual_probe_fired (mkEngine cfgDefault) 5 = mkEngine cfgDefault :=
  mark_fired_noop_without_request (mkEngine cfgDefault) 5 rfl

/-- Claim C8: under notifications enabled with flow mode, snooze and quiet
hours all inactive — while PROLONGED_SEATED a notification fires exactly
when no prior timestamp exists or the elapsed time reaches the cooldown,
otherwise the remaining cooldown is reported and the timestamp is kept;
on any non-PROLONGED_SEATED tick the timestamp is cleared. -/
theorem reminder_policy_prolonged (state : ActivityState) (lastAt : Option ℚ)
    (now cd cdm sr qr : ℚ) :
    (state = .PROLONGED_SEATED →
      ((reminderTick true false false false state lastAt now cd cdm sr qr).fired = true
        ↔ (lastAt = none ∨ ∃ l, lastAt = some l ∧ cd ≤ now - l)) ∧
      ((reminderTick true false false false state lastAt now cd cdm sr qr).fired = true →
        (reminderTick true false false false state lastAt now cd cdm sr qr).last_notification_at
          = some now ∧
        (reminderTick true false false false state lastAt now cd cdm sr qr).next_reminder_minutes
          = some cdm) ∧
      (∀ l, lastAt = some l → now - l < cd →
        (reminderTick true false false false state lastAt now cd cdm sr qr).fired = false ∧
        (reminderTick true false false false state lastAt now cd cdm sr qr).last_notification_at
          = some l ∧
        (reminderTick true false false false state lastAt now cd cdm sr qr).next_reminder_minutes
          = some (qmax 0 ((cd - (now - l)) / 60)))) ∧
    (state ≠ .PROLONGED_SEATED →
      (reminderTick true false false false state lastAt now cd cdm sr qr).last_notification_at
        = none ∧
      (reminderTick true false false false state lastAt now cd cdm sr qr).fired = false) := by
  constructor
  · intro hs
    subst hs
    cases lastAt with
    | none =>
      refine ⟨⟨fun _ => Or.inl rfl, fun _ => rfl⟩, fun _ => ⟨rfl, rfl⟩, ?_⟩
      intro l hl
      exact fun _ => Option.noConfusion hl
    | some l =>
      have hred : reminderTick true false false false .PROLONGED_SEATED (some l)
          now cd cdm sr qr
          = if cd ≤ now - l then
              ({ fired := true, next_reminder_minutes := some cdm
                 last_notification_at := some now } : RemindOutcome)
            else
              { fired := false
                next_reminder_minutes := some (qmax 0 ((cd - (now - l)) / 60))
                last_notification_at := some l } := rfl
      rw [hred]
      by_cases hc : cd ≤ now - l
      · rw [if_pos hc]
        refine ⟨⟨fun _ => Or.inr ⟨l, rfl, hc⟩, fun _ => rfl⟩, fun _ => ⟨rfl, rfl⟩, ?_⟩
        intro l2 hl2 hlt
        cases Option.some.inj hl2
        exact absurd hc (not_le.mpr hlt)
      · rw [if_neg hc]
        refine ⟨⟨fun hf => Bool.noConfusion hf, ?_⟩, fun hf => Bool.noConfusion hf, ?_⟩
        · rintro (h | ⟨l2, hl2, hc2⟩)
          · exact Option.noConfusion h
          · cases Option.some.inj hl2
            exact absurd hc2 hc
        · intro l2 hl2 _
          cases Option.some.inj hl2
          exact ⟨rfl, rfl, rfl⟩
  · intro hs
    have hred : reminderTick true false false false state lastAt now cd cdm sr qr
        = if state = .PROLONGED_SEATED then
            (match lastAt with
             | none =>
               ({ fired := true, next_reminder_minutes := some cdm
                  last_notification_at := some now } : RemindOutcome)
             | some l =>
               if cd ≤ now - l then
                 { fired := true, next_reminder_minutes := some cdm
                   last_notification_at := some now }
               else
                 { fired := false
                   next_reminder_minutes := some (qmax 0 ((cd - (now - l)) / 60))
                   last_notification_at := some l })
          else
            { fired := false, next_reminder_minutes := none
              last_notification_at := none } := rfl
    rw [hred, if_neg hs]
    exact ⟨rfl, rfl⟩

/-- Witness for C8: concrete cooldown scenario with a 30-minute cooldown
(1800 s): first prolonged tick fires; a tick 600 s after a firing does
not and reports 20 remaining minutes; a non-prolonged tick clears. -/
theorem reminder_policy_prolonged_witness :
    (reminderTick true false false false .PROLONGED_SEATED none 100 1800 30 0 0).fired
      = true ∧
    (reminderTick true false false false .PROLONGED_SEATED (some 100) 700 1800 30 0 0).fired
      = false ∧
    (reminderTick true false false false .PROLONGED_SEATED (some 100) 700 1800 30 0 0).next_reminder_minutes
      = some (qmax 0 ((1800 - (700 - 100)) / 60)) ∧
    (reminderTick true false false false .ACTIVE (some 100) 700 1800 30 0 0).last_notification_at
      = none := by
  refine ⟨?_, ?_, ?_, ?_⟩
  · exact ((reminder_policy_prolonged .PROLONGED_SEATED none 100 1800 30 0 0).1
      rfl).1.mpr (Or.inl rfl)
  · exact (((reminder_policy_prolonged .PROLONGED_SEATED (some 100) 700 1800 30 0 0).1
      rfl).2.2 100 rfl (by norm_num)).1
  · exact (((reminder_policy_prolonged .PROLONGED_SEATED (some 100) 700 1800 30 0 0).1
      rfl).2.2 100 rfl (by norm_num)).2.2
  · exact ((reminder_policy_prolonged .ACTIVE (some 100) 700 1800 30 0 0).2
      (by intro h; exact ActivityState.noConfusion h)).1

/-- Claim C6 (amended): `should_trigger_visual_probe` reports true only
while a request is outstanding, not already marked fired at or after the
request, and within 90 s of it; and a new request replaces an outstanding
one only past the 120 s cooldown.  (The cooldown governs replacement of a
*still-recorded* request: when the gating conditions clear the request
timestamps, a fresh request may legitimately be issued sooner, which is
what the counterexample exhibits against the claim's unconditional
phrasing.) -/
theorem probe_window_and_cooldown :
    (∀ (e : EngineState) (now : ℚ), should_trigger_visual_probe e now = true →
      e.visual_probe_requested_at.isSome = true ∧
      (∀ t tr, e.visual_probe_requested_at = some t →
        e.visual_probe_triggered_at = some tr → tr < t) ∧
      (∀ t, e.visual_probe_requested_at = some t → now - t ≤ 90)) ∧
    (∀ (cfg : AppConfig) (req trig : Option ℚ) (now sm bm : ℚ)
        (st : ActivityState) (conf : ℚ) (ps : String) (t u : ℚ),
      req = some t →
      (update_visual_probe_state cfg req trig now sm bm st conf ps).1 = some u →
      u ≠ t → 120 < now - t) := by
  constructor
  · intro e now h
    unfold should_trigger_visual_probe should_request_visual_probe at h
    cases hreq : e.visual_probe_requested_at with
    | none => rw [hreq] at h; exact Bool.noConfusion h
    | some t =>
      rw [hreq] at h
      obtain ⟨hfired, hwin⟩ := Bool.and_eq_true_iff.mp h
      refine ⟨rfl, ?_, ?_⟩
      · intro t2 tr ht2 htr
        cases Option.some.inj ht2
        rw [htr] at hfired
        have hfired2 : (!decide (t ≤ tr)) = true := hfired
        have hnle : ¬t ≤ tr := by simpa using hfired2
        exact not_le.mp hnle
      · intro t2 ht2
        cases Option.some.inj ht2
        exact of_decide_eq_true hwin
  · intro cfg req trig now sm bm st conf ps t u hreq hpost hne
    subst hreq
    unfold update_visual_probe_state at hpost
    by_cases h1 : st = ActivityState.PROLONGED_SEATED
    · rw [if_pos h1] at hpost
      exact absurd (Option.some.inj hpost).symm hne
    rw [if_neg h1] at hpost
    by_cases h2 : (cfg.break_reset_minutes : ℚ) * 60 ≤ bm * 60
    · rw [if_pos h2] at hpost
      exact Option.noConfusion hpost
    rw [if_neg h2] at hpost
    by_cases h3 : sm * 60 < (cfg.prolonged_seated_minutes : ℚ) * 60 * (19 / 20)
    · rw [if_pos h3] at hpost
      exact Option.noConfusion hpost
    rw [if_neg h3] at hpost
    by_cases h4 : cfg.vision_presence_threshold ≤ conf ∧ ps ≠ "untracked"
    · rw [if_pos h4] at hpost
      exact Option.noConfusion hpost
    rw [if_neg h4] at hpost
    have hpost2 : (if now - t ≤ 90 then ((some t : Option ℚ), trig)
        else if now - t ≤ 120 then ((some t : Option ℚ), trig)
        else ((some now : Option ℚ), (none : Option ℚ))).1 = some u := hpost
    by_cases h5 : now - t ≤ 90
    · rw [if_pos h5] at hpost2
      exact absurd (Option.some.inj hpost2).symm hne
    rw [if_neg h5] at hpost2
    by_cases h6 : now - t ≤ 120
    · rw [if_pos h6] at hpost2
      exact absurd (Option.some.inj hpost2).symm hne
    · exact not_le.mp h6

/-- A default-config engine with a probe request pending at t = 10. -/
def enginePending : EngineState :=
  { config := cfgDefault
    activity_window := 180
    baseline_activity := 30
    visual_probe_requested_at := some 10 }

/-- Witness for C6 (amended): both facets at concrete inputs — a pending
request 40 s old is within the window, and a replacement at 240 s elapsed
is past the 120 s cooldown. -/
theorem probe_window_and_cooldown_witness :
    (50 : ℚ) - 10 ≤ 90 ∧ (120 : ℚ) < 250 - 10 :=
  ⟨(probe_window_and_cooldown.1 enginePending 50 (by with_unfolding_all rfl)).2.2
      10 rfl,
   probe_window_and_cooldown.2 cfgDefault (some 10) none 250 44 1 .ACTIVE 0
     "untracked" 10 250 rfl (by with_unfolding_all rfl) (by norm_num)⟩

/-- Probe-scheduler counterexample configuration: `break_reset_minutes`
is 25 and `prolonged_seated_minutes` 20, so a 19.5-minute seated streak
sits in the 95 % probe-request band while the break gate is still open. -/
def cfgProbe : AppConfig :=
  { short_break_minutes := 3
    break_reset_minutes := 25
    prolonged_seated_minutes := 20
    vision_presence_threshold := 3 / 5
    notifications_enabled := true
    notification_cooldown_minutes := 30 }

/-- Tick-1 buffer: keyboard activity 19.5 min old, plus a fresh untracked
low-confidence vision record, putting the engine in the request band. -/
def bufProbeA : List SignalRecord :=
  [{ timestamp := 8830, values := [("keyboard_mouse_activity", .num 30)] },
   { timestamp := 9990, values := [("presence_confidence", .num (1 / 5)),
                                   ("posture_state", .str "untracked")] }]

/-- Tick-2 buffer: only a 26-minute-old record, so the break gate clears
the outstanding request. -/
def bufProbeB : List SignalRecord :=
  [{ timestamp := 8470, values := [("keyboard_mouse_activity", .num 30)] }]

/-- Tick-3 buffer: the tick-1 situation again, 60 s later. -/
def bufProbeC : List SignalRecord :=
  [{ timestamp := 8890, values := [("keyboard_mouse_activity", .num 30)] },
   { timestamp := 10050, values := [("presence_confidence", .num (1 / 5)),
                                    ("posture_state", .str "untracked")] }]

/-- Engine after the first probe-scenario tick. -/
def probeTick1 : EngineState := engineAfter (mkEngine cfgProbe) bufProbeA 10000

/-- Engine after the second probe-scenario tick. -/
def probeTick2 : EngineState := engineAfter probeTick1 bufProbeB 10030

/-- Engine after the third probe-scenario tick. -/
def probeTick3 : EngineState := engineAfter probeTick2 bufProbeC 10060

/-- Counterexample to C6 as stated: a probe request is issued at t = 10000,
cleared by the break gate at 10030, and a brand-new request is issued at
10060, i.e. earlier than t + 120 — the 120 s cooldown does not bound the
issue times of successive requests unconditionally. -/
theorem probe_cooldown_counterexample :
    probeTick1.visual_probe_requested_at = some 10000 ∧
    probeTick2.visual_probe_requested_at = none ∧
    probeTick3.visual_probe_requested_at = some 10060 ∧
    (10060 : ℚ) < 10000 + 120 :=
  ⟨by with_unfolding_all rfl, by with_unfolding_all rfl,
   by with_unfolding_all rfl, by norm_num⟩

theorem le_imax_right (a b : ℤ) : b ≤ imax a b := by
  unfold imax
  by_cases h : a ≤ b
  · rw [if_pos h]
  · rw [if_neg h]
    exact le_of_lt (not_le.mp h)

theorem roundHalfEven_nonneg {x : ℚ} (h : 0 ≤ x) : 0 ≤ roundHalfEven x := by
  have hf : (0 : ℤ) ≤ ⌊x⌋ := Int.floor_nonneg.mpr h
  simp only [roundHalfEven]
  split_ifs <;> omega

theorem roundHalfEven_le {x : ℚ} {N : ℤ} (h : x ≤ (N : ℚ)) :
    roundHalfEven x ≤ N := by
  have hf : ⌊x⌋ ≤ N := by
    have := Int.floor_le_floor h
    rwa [Int.floor_intCast] at this
  have key : ¬(x - (⌊x⌋ : ℚ) < 1 / 2) → ⌊x⌋ + 1 ≤ N := by
    intro hr
    have hx1 : (⌊x⌋ : ℚ) + 1 / 2 ≤ x := by
      have := not_lt.mp hr
      linarith
    have hx2 : (⌊x⌋ : ℚ) < (N : ℚ) := by linarith
    exact Int.add_one_le_iff.mpr (by exact_mod_cast hx2)
  simp only [roundHalfEven]
  split_ifs with h1 h2 h3
  · exact hf
  · exact key h1
  · exact hf
  · exact key h1

theorem pyRound4_bounds {x : ℚ} (h0 : 0 ≤ x) (h1 : x ≤ 1) :
    0 ≤ pyRound4 x ∧ pyRound4 x ≤ 1 := by
  unfold pyRound4
  have hr0 : (0 : ℤ) ≤ roundHalfEven (x * 10000) :=
    roundHalfEven_nonneg (by positivity)
  have hrN : roundHalfEven (x * 10000) ≤ (10000 : ℤ) :=
    roundHalfEven_le (by push_cast; linarith)
  constructor
  · exact div_nonneg (by exact_mod_cast hr0) (by norm_num)
  · rw [div_le_one (by norm_num)]
    calc ((roundHalfEven (x * 10000) : ℤ) : ℚ) ≤ ((10000 : ℤ) : ℚ) := by
          exact_mod_cast hrN
      _ = 10000 := by norm_num

theorem compute_score_bounds (cfg : AppConfig) {s n p : ℚ}
    (hs : 0 ≤ s) (hn0 : 0 ≤ n) (hn1 : n ≤ 1) (hp : p ≤ 1) :
    0 ≤ compute_score cfg s n p ∧ compute_score cfg s n p ≤ 1 := by
  show 0 ≤ pyRound4 ((1 - qmin (s / ((imax cfg.prolonged_seated_minutes 1 : ℤ) : ℚ)) 1)
      * n * (if 0 < p then p else 1 / 2)) ∧
    pyRound4 ((1 - qmin (s / ((imax cfg.prolonged_seated_minutes 1 : ℤ) : ℚ)) 1)
      * n * (if 0 < p then p else 1 / 2)) ≤ 1
  have hd1 : (1 : ℚ) ≤ ((imax cfg.prolonged_seated_minutes 1 : ℤ) : ℚ) := by
    exact_mod_cast le_imax_right cfg.prolonged_seated_minutes 1
  have hfrac0 : 0 ≤ qmin (s / ((imax cfg.prolonged_seated_minutes 1 : ℤ) : ℚ)) 1 :=
    qmin_nonneg (div_nonneg hs (by linarith)) zero_le_one
  have hfrac1 : qmin (s / ((imax cfg.prolonged_seated_minutes 1 : ℤ) : ℚ)) 1 ≤ 1 :=
    qmin_le_right _ _
  have hm0 : 0 < (if 0 < p then p else 1 / 2) := by
    split_ifs with h
    · exact h
    · norm_num
  have hm1 : (if 0 < p then p else 1 / 2) ≤ 1 := by
    split_ifs with h
    · exact hp
    · norm_num
  have hprod0 : 0 ≤ (1 - qmin (s / ((imax cfg.prolonged_seated_minutes 1 : ℤ) : ℚ)) 1)
      * n * (if 0 < p then p else 1 / 2) :=
    mul_nonneg (mul_nonneg (by linarith) hn0) hm0.le
  have hprod1 : (1 - qmin (s / ((imax cfg.prolonged_seated_minutes 1 : ℤ) : ℚ)) 1)
      * n * (if 0 < p then p else 1 / 2) ≤ 1 :=
    mul_le_one₀ (mul_le_one₀ (by linarith) hn0 hn1) hm0.le hm1
  exact pyRound4_bounds hprod0 hprod1

theorem foldl_qmax_nonneg (l : List SignalRecord) {a : ℚ} (ha : 0 ≤ a) :
    0 ≤ l.foldl (fun s r => s + qmax 0 (activityNumeric r.values)) a := by
  induction l generalizing a with
  | nil => exact ha
  | cons r t ih => exact ih (add_nonneg ha (qmax_zero_nonneg _))

theorem activitySum_nonneg (records : List SignalRecord) (now w : ℚ) :
    0 ≤ activitySum records now w :=
  foldl_qmax_nonneg _ le_rfl

theorem normalizedActivity_bounds {sum baseline : ℚ} (hb : 0 < baseline)
    (hs : 0 ≤ sum) :
    0 ≤ normalizedActivity sum baseline ∧ normalizedActivity sum baseline ≤ 1 := by
  unfold normalizedActivity
  split_ifs with h
  · exact ⟨le_rfl, zero_le_one⟩
  · exact ⟨qmin_nonneg (div_nonneg hs hb.le) zero_le_one, qmin_le_right _ _⟩

theorem update_seated_timer_nonneg (cfg : AppConfig) (s : Option ℚ)
    (now la bm : ℚ) : 0 ≤ (update_seated_timer cfg s now la bm).2 := by
  unfold update_seated_timer
  split_ifs
  · exact le_rfl
  · exact qmax_zero_nonneg _

theorem latest_presence_aux_posture_le {l : List SignalRecord} {p : Presence}
    (h : latest_presence_aux l = .ok (some p))
    (hb : ∀ r ∈ l, ∀ q : ℚ, getVal r.values "posture_score" = some (.num q) → q ≤ 1) :
    p.posture_score ≤ 1 := by
  induction l with
  | nil => exact Option.noConfusion (Except.ok.inj h)
  | cons r t ih =>
    unfold latest_presence_aux at h
    by_cases hk : (getVal r.values "presence_confidence").isSome = true
    · rw [if_pos hk] at h
      cases hc : pyFloat (getValD r.values "presence_confidence" (.num 0)) with
      | error e =>
        cases hp2 : pyFloat (getValD r.values "posture_score" (.num 0)) with
        | error e2 => rw [hc, hp2] at h; exact Except.noConfusion h
        | ok q2 => rw [hc, hp2] at h; exact Except.noConfusion h
      | ok c =>
        cases hp2 : pyFloat (getValD r.values "posture_score" (.num 0)) with
        | error e => rw [hc, hp2] at h; exact Except.noConfusion h
        | ok q2 =>
          rw [hc, hp2] at h
          have hpe := Option.some.inj (Except.ok.inj h)
          subst hpe
          show q2 ≤ 1
          cases hv : getVal r.values "posture_score" with
          | none =>
            unfold getValD at hp2
            rw [hv] at hp2
            have h0 := Except.ok.inj hp2
            rw [← h0]
            norm_num
          | some v =>
            unfold getValD at hp2
            rw [hv] at hp2
            cases v with
            | num qq =>
              have hq := Except.ok.inj hp2
              exact hb r (List.mem_cons_self r t) q2 (by rw [hv, hq])
            | str s => exact Except.noConfusion hp2
    · rw [if_neg hk] at h
      exact ih h (fun r2 hr2 => hb r2 (List.mem_cons_of_mem _ hr2))

theorem latest_presence_posture_le {records : List SignalRecord} {p : Presence}
    (h : latest_presence records = .ok (some p))
    (hb : ∀ r ∈ records, ∀ q : ℚ,
      getVal r.values "posture_score" = some (.num q) → q ≤ 1) :
    p.posture_score ≤ 1 :=
  latest_presence_aux_posture_le h
    (fun r hr => hb r (List.mem_reverse.mp hr))

theorem coreScore_bounds (e : EngineState) (records : List SignalRecord)
    (now : ℚ) (laOpt : Option ℚ) (presOpt : Option Presence)
    (hbase : 0 < e.baseline_activity)
    (hp : ∀ p, visionSignalOf presOpt = some p → p.posture_score ≤ 1) :
    0 ≤ coreScore e records now laOpt presOpt ∧
    coreScore e records now laOpt presOpt ≤ 1 := by
  have hn := normalizedActivity_bounds hbase
    (activitySum_nonneg records now e.activity_window)
  have hs : 0 ≤ (coreSeatedPair e records now laOpt presOpt).2 :=
    update_seated_timer_nonneg _ _ _ _ _
  have hpost : corePosture presOpt ≤ 1 := by
    unfold corePosture
    cases hv : visionSignalOf presOpt with
    | none => exact le_rfl
    | some p2 => exact hp p2 hv
  unfold coreScore
  exact compute_score_bounds e.config hs hn.1 hn.2 hpost

/-- Claim C7 (amended): for every reachable engine (positive activity
baseline) and every buffer whose numeric `posture_score` payloads stay in
the adapters' specified `[0,1]` range (at most 1), the snapshot's score
lies in `[0,1]`.  Unconditionally the claim is false: a buffer smuggling
`posture_score > 1` pushes the score above 1 (see the counterexample). -/
theorem score_in_unit_interval (e : EngineState) (records : List SignalRecord)
    (now : ℚ) (snap : ActivitySnapshot) (e2 : EngineState)
    (hbase : 0 < e.baseline_activity)
    (hposture : ∀ r ∈ records, ∀ q : ℚ,
      getVal r.values "posture_score" = some (.num q) → q ≤ 1)
    (h : compute_snapshot e records now = .ok (snap, e2)) :
    0 ≤ snap.score ∧ snap.score ≤ 1 := by
  cases records with
  | nil =>
    have h2 := Except.ok.inj h
    have h3 : (0 : ℚ) = snap.score :=
      congrArg (fun pr : ActivitySnapshot × EngineState => pr.1.score) h2
    rw [← h3]
    norm_num
  | cons a t =>
    unfold compute_snapshot at h
    simp only [List.isEmpty_cons] at h
    rw [if_neg Bool.false_ne_true] at h
    cases hla : last_activity_time e.config.vision_presence_threshold (a :: t) with
    | error er =>
      cases hpres : latest_presence (a :: t) with
      | error er2 => rw [hla, hpres] at h; exact Except.noConfusion h
      | ok presOpt => rw [hla, hpres] at h; exact Except.noConfusion h
    | ok laOpt =>
      cases hpres : latest_presence (a :: t) with
      | error er => rw [hla, hpres] at h; exact Except.noConfusion h
      | ok presOpt =>
        rw [hla, hpres] at h
        have h2 := Except.ok.inj h
        have hsnap : snap = (computeCore e (a :: t) now laOpt presOpt).1 :=
          (congrArg Prod.fst h2).symm
        have hscore : (computeCore e (a :: t) now laOpt presOpt).1.score
            = coreScore e (a :: t) now laOpt presOpt := rfl
        rw [hsnap, hscore]
        refine coreScore_bounds e (a :: t) now laOpt presOpt hbase ?_
        intro p hv
        have hpres2 : presOpt = some p := by
          cases presOpt with
          | none => exact Option.noConfusion hv
          | some p2 =>
            simp only [visionSignalOf] at hv
            by_cases hcond : p2.posture_state ≠ "untracked" ∧ 1 / 20 < p2.confidence
            · rw [if_pos hcond] at hv
              rw [Option.some.inj hv]
            · rw [if_neg hcond] at hv
              exact Option.noConfusion hv
        rw [hpres2] at hpres
        exact latest_presence_posture_le hpres hposture

/-- A buffer carrying an out-of-range `posture_score` of 5 together with
fresh keyboard activity and high presence confidence. -/
def bufHighPosture : List SignalRecord :=
  [{ timestamp := 990
     values := [("keyboard_mouse_activity", .num 30),
                ("presence_confidence", .num (9 / 10)),
                ("posture_score", .num 5),
                ("posture_state", .str "upright")] }]

/-- Counterexample to C7 as stated: with `posture_score = 5` in the
buffer, the returned score is 4.9815 > 1, so the score is not bounded by
1 for *every* buffer contents. -/
theorem score_above_one_counterexample :
    1 < scoreOf (mkEngine cfgDefault) bufHighPosture 1000 := by
  have h : scoreOf (mkEngine cfgDefault) bufHighPosture 1000 = 9963 / 2000 := by
    with_unfolding_all rfl
  rw [h]
  norm_num

/-- A well-formed buffer: one keyboard record, no posture payloads. -/
def bufGood : List SignalRecord :=
  [{ timestamp := 950, values := [("keyboard_mouse_activity", .num 10)] }]

/-- The snapshot `compute_snapshot` produces on `bufGood` at t = 1000. -/
def snapGood : ActivitySnapshot :=
  { score := 409 / 1250
    state := .ACTIVE
    metrics := [("activity_sum", .num 10),
                ("normalized_activity", .num (1 / 3)),
                ("seated_minutes", .num (5 / 6)),
                ("break_minutes", .num (5 / 6)),
                ("presence_confidence", .num 0),
                ("posture_score", .num 1),
                ("posture_state", .str "unknown"),
                ("score", .num (409 / 1250)),
                ("visual_probe_pending", .num 0)] }

/-- The engine state after that call. -/
def engineGood : EngineState :=
  { config := cfgDefault
    activity_window := 180
    baseline_activity := 30
    seated_started_at := some 950 }

/-- Witness for C7 (amended): the bound at a concrete in-range buffer. -/
theorem score_in_unit_interval_witness :
    0 ≤ snapGood.score ∧ snapGood.score ≤ 1 := by
  refine score_in_unit_interval (mkEngine cfgDefault) bufGood 1000 snapGood
    engineGood ?_ ?_ ?_
  · have hb : (mkEngine cfgDefault).baseline_activity = 30 := by
      with_unfolding_all rfl
    rw [hb]
    norm_num
  · intro r hr q hq
    simp only [bufGood] at hr
    rw [List.mem_singleton] at hr
    subst hr
    have h2q : (none : Option Value) = some (Value.num q) := hq
    exact Option.noConfusion h2q
  · with_unfolding_all rfl

/-- Claim C5 (amended): if the most recent vision sample is a *trusted*
signal (`posture_state ≠ "untracked"`, confidence > 0.05) whose
confidence is below `vision_presence_threshold`, and no record in the
trailing activity window has positive keyboard/mouse volume, then the
snapshot's `break_minutes` is at least `break_reset_minutes` and the
state is SHORT_BREAK.  Without the trust condition the claim fails (see
the counterexample: an `"untracked"` or ≤ 0.05-confidence sample does not
trigger the override). -/
theorem low_confidence_forces_break (e : EngineState)
    (records : List SignalRecord) (now : ℚ) (snap : ActivitySnapshot)
    (e2 : EngineState) (p : Presence)
    (h : compute_snapshot e records now = .ok (snap, e2))
    (hpres : latest_presence records = .ok (some p))
    (hconf : p.confidence < e.config.vision_presence_threshold)
    (htrack : p.posture_state ≠ "untracked")
    (hmin : 1 / 20 < p.confidence)
    (hkm : hasRecentKM records now e.activity_window = false) :
    snap.state = .SHORT_BREAK ∧ breakMetricAtLeastReset e.config snap = true := by
  cases records with
  | nil => exact Option.noConfusion (Except.ok.inj hpres)
  | cons a t =>
    unfold compute_snapshot at h
    simp only [List.isEmpty_cons] at h
    rw [if_neg Bool.false_ne_true] at h
    cases hla : last_activity_time e.config.vision_presence_threshold (a :: t) with
    | error er => rw [hla, hpres] at h; exact Except.noConfusion h
    | ok laOpt =>
      rw [hla, hpres] at h
      have h2 := Except.ok.inj h
      have hsnap : snap = (computeCore e (a :: t) now laOpt (some p)).1 :=
        (congrArg Prod.fst h2).symm
      have hv : visionSignalOf (some p) = some p := by
        simp only [visionSignalOf]
        rw [if_pos ⟨htrack, hmin⟩]
      have hbreak : coreBreak e (a :: t) now laOpt (some p)
          = qmax (qmax 0 ((now - lastActivityAt (a :: t) laOpt) / 60))
              (e.config.break_reset_minutes : ℚ) := by
        simp only [coreBreak, breakWithOverride, hv]
        rw [if_pos ⟨hconf, hkm⟩]
      have hge : (e.config.break_reset_minutes : ℚ)
          ≤ coreBreak e (a :: t) now laOpt (some p) := by
        rw [hbreak]
        exact le_qmax_right _ _
      constructor
      · rw [hsnap]
        show coreState e (a :: t) now laOpt (some p) = ActivityState.SHORT_BREAK
        unfold coreState resolve_state
        rw [if_pos hge]
      · rw [hsnap]
        unfold breakMetricAtLeastReset
        have hmetric : getVal (computeCore e (a :: t) now laOpt (some p)).1.metrics
            "break_minutes"
            = some (.num (coreBreak e (a :: t) now laOpt (some p))) := rfl
        rw [hmetric]
        exact decide_eq_true hge

/-- The configuration used by the C5 scenarios: `break_reset_minutes`
is 10 so a 6-minute-old activity record leaves the break gate open. -/
def cfgSlow : AppConfig :=
  { short_break_minutes := 5
    break_reset_minutes := 10
    prolonged_seated_minutes := 45
    vision_presence_threshold := 3 / 5
    notifications_enabled := true
    notification_cooldown_minutes := 30 }

/-- The produced snapshot, if any: extraction helper. -/
def snapOf (e : EngineState) (records : List SignalRecord) (now : ℚ) :
    Option ActivitySnapshot :=
  (compute_snapshot e records now).toOption.map (·.1)

/-- A buffer whose latest vision sample has confidence 0.2 < threshold
but posture state `"untracked"`, plus keyboard activity 6 minutes old
(outside the 5-minute window). -/
def bufUntracked : List SignalRecord :=
  [{ timestamp := 1640, values := [("keyboard_mouse_activity", .num 30)] },
   { timestamp := 1990, values := [("presence_confidence", .num (1 / 5)),
                                   ("posture_state", .str "untracked")] }]

/-- Counterexample to C5 as stated: the latest vision sample has
confidence 1/5 below the 3/5 threshold and there is no recent
keyboard/mouse activity, yet the snapshot's state is ACTIVE and
`break_minutes` (6) stays below `break_reset_minutes` (10) — the
override requires the sample to be trusted, which `"untracked"` is not. -/
theorem low_confidence_counterexample :
    latest_presence bufUntracked
      = .ok (some { timestamp := 1990, confidence := 1 / 5, posture_score := 0
                    posture_state := "untracked" }) ∧
    (1 / 5 : ℚ) < cfgSlow.vision_presence_threshold ∧
    hasRecentKM bufUntracked 2000 (mkEngine cfgSlow).activity_window = false ∧
    (snapOf (mkEngine cfgSlow) bufUntracked 2000).map (·.state)
      = some ActivityState.ACTIVE ∧
    (snapOf (mkEngine cfgSlow) bufUntracked 2000).map (breakMetricAtLeastReset cfgSlow)
      = some false := by
  refine ⟨by with_unfolding_all rfl, by norm_num [cfgSlow], ?_, ?_, ?_⟩
  · with_unfolding_all rfl
  · with_unfolding_all rfl
  · with_unfolding_all rfl

/-- The C5 witness buffer: same as `bufUntracked` but the vision sample
is trusted (`posture_state = "unknown"`). -/
def bufTrusted : List SignalRecord :=
  [{ timestamp := 1640, values := [("keyboard_mouse_activity", .num 30)] },
   { timestamp := 1990, values := [("presence_confidence", .num (1 / 5)),
                                   ("posture_state", .str "unknown")] }]

/-- The snapshot `compute_snapshot` produces on `bufTrusted` at t = 2000:
the override forces `break_minutes` to 10 and the state to SHORT_BREAK. -/
def snapTrusted : ActivitySnapshot :=
  { score := 0
    state := .SHORT_BREAK
    metrics := [("activity_sum", .num 0),
                ("normalized_activity", .num 0),
                ("seated_minutes", .num 0),
                ("break_minutes", .num 10),
                ("presence_confidence", .num (1 / 5)),
                ("posture_score", .num 0),
                ("posture_state", .str "unknown"),
                ("score", .num 0),
                ("visual_probe_pending", .num 0)] }

/-- The engine state after that call. -/
def engineTrusted : EngineState :=
  { config := cfgSlow
    activity_window := 300
    baseline_activity := 50 }

/-- Witness for C5 (amended): the trusted low-confidence sample forces a
SHORT_BREAK with `break_minutes = 10 ≥ break_reset_minutes`. -/
theorem low_confidence_forces_break_witness :
    snapTrusted.state = ActivityState.SHORT_BREAK ∧
    breakMetricAtLeastReset cfgSlow snapTrusted = true := by
  refine low_confidence_forces_break (mkEngine cfgSlow) bufTrusted 2000 snapTrusted
    engineTrusted { timestamp := 1990, confidence := 1 / 5, posture_score := 0
                    posture_state := "unknown" }
    ?_ ?_ ?_ ?_ ?_ ?_
  · with_unfolding_all rfl
  · with_unfolding_all rfl
  · show (1 / 5 : ℚ) < (mkEngine cfgSlow).config.vision_presence_threshold
    norm_num [mkEngine, cfgSlow]
  · decide
  · norm_num
  · with_unfolding_all rfl

/-- Claim C9 (amended): after `update_config(new_config)` the next
`compute_snapshot` takes all thresholds from `new_config`, but keeps the
construction-time activity window and baseline; it agrees with a freshly
constructed engine carrying the same timers exactly when those two values
coincide with the ones `new_config` would derive. -/
theorem update_config_same_window_matches_fresh (e : EngineState)
    (cfg2 : AppConfig) (records : List SignalRecord) (now : ℚ)
    (hw : (mkEngine cfg2).activity_window = e.activity_window)
    (hb : (mkEngine cfg2).baseline_activity = e.baseline_activity) :
    compute_snapshot (update_config e cfg2) records now =
    compute_snapshot
      { mkEngine cfg2 with
          seated_started_at := e.seated_started_at
          visual_probe_requested_at := e.visual_probe_requested_at
          visual_probe_triggered_at := e.visual_probe_triggered_at }
      records now := by
  have he : update_config e cfg2 =
      { mkEngine cfg2 with
          seated_started_at := e.seated_started_at
          visual_probe_requested_at := e.visual_probe_requested_at
          visual_probe_triggered_at := e.visual_probe_triggered_at } := by
    cases e
    simp_all [update_config, mkEngine]
  rw [he]

/-- Witness for C9 (amended): updating a default-config engine to the
default config matches the freshly built default engine. -/
theorem update_config_same_window_matches_fresh_witness :
    compute_snapshot (update_config (mkEngine cfgDefault) cfgDefault) [] 7 =
    compute_snapshot
      { mkEngine cfgDefault with
          seated_started_at := (mkEngine cfgDefault).seated_started_at
          visual_probe_requested_at := (mkEngine cfgDefault).visual_probe_requested_at
          visual_probe_triggered_at := (mkEngine cfgDefault).visual_probe_triggered_at }
      [] 7 :=
  update_config_same_window_matches_fresh (mkEngine cfgDefault) cfgDefault [] 7 rfl rfl

/-- A one-minute-short-break config: the construction-time activity window
is 60 s with baseline 20. -/
def cfgShortWindow : AppConfig :=
  { short_break_minutes := 1
    break_reset_minutes := 10
    prolonged_seated_minutes := 45
    vision_presence_threshold := 3 / 5
    notifications_enabled := true
    notification_cooldown_minutes := 30 }

/-- A five-minute-short-break config: window 300 s, baseline 50. -/
def cfgWideWindow : AppConfig :=
  { short_break_minutes := 5
    break_reset_minutes := 10
    prolonged_seated_minutes := 45
    vision_presence_threshold := 3 / 5
    notifications_enabled := true
    notification_cooldown_minutes := 30 }

/-- A single keyboard record 3 minutes old: inside the 5-minute window,
outside the 1-minute one. -/
def bufWindow : List SignalRecord :=
  [{ timestamp := 820, values := [("keyboard_mouse_activity", .num 40)] }]

/-- Counterexample to C9 as stated: an engine built with the 1-minute
config then hot-swapped to the 5-minute config keeps the stale 60 s
window (score 0: the record falls outside), while a fresh engine built
with the new config sees the record (score 0.7467) — the window and
baseline are *not* re-derived from `new_config`. -/
theorem update_config_stale_window_counterexample :
    scoreOf (update_config (mkEngine cfgShortWindow) cfgWideWindow) bufWindow 1000
      ≠ scoreOf (mkEngine cfgWideWindow) bufWindow 1000 := by
  have h1 : scoreOf (update_config (mkEngine cfgShortWindow) cfgWideWindow)
      bufWindow 1000 = 0 := by with_unfolding_all rfl
  have h2 : scoreOf (mkEngine cfgWideWindow) bufWindow 1000 = 7467 / 10000 := by
    with_unfolding_all rfl
  rw [h1, h2]
  norm_num

end UpClock
